import Mathlib

/-!
Verification of the TensorStack Python backend (StableDiffusionXL pipeline
module, quantization policy and download-progress tracker) against its
natural-language specification.  The Python modules under
`src/TensorStack.Python` are shallowly embedded: module-level globals become
record fields threaded through the functions, CPython dicts become
association lists with insertion order, floats used for byte counts and
ratios become rationals, and exceptions become `Except` values.  Model
loading (network / file system) is abstracted as allocation of fresh object
identifiers drawn from a counter, which is what the identity-reuse claims
are about.
-/

namespace TensorStack

/-! ## `tensorstack.data_objects` / `tensorstack.quantization` -/

/-- Torch dtypes reachable through `data_objects.get_data_type`. -/
inductive DType where
  | float8e5m2
  | float8e4m3fn
  | float16
  | bfloat16
  | int8
  | int16
  | int32
  | int64
  | float
deriving DecidableEq, Repr

/-- Embedding of `data_objects.get_data_type`: unknown strings fall back to
`torch.float`. -/
def get_data_type (dtype : String) : DType :=
  if dtype = "float8_e5m2" then .float8e5m2
  else if dtype = "float8_e4m3fn" then .float8e4m3fn
  else if dtype = "float16" then .float16
  else if dtype = "bfloat16" then .bfloat16
  else if dtype = "int8" then .int8
  else if dtype = "int16" then .int16
  else if dtype = "int32" then .int32
  else if dtype = "int64" then .int64
  else if dtype = "float8" then .float8e4m3fn
  else .float

/-- Which optional quantization backends imported successfully
(`_HAS_TORCHAO`, `_HAS_QUANTO`). -/
structure QuantBackends where
  hasTorchao : Bool
  hasQuanto : Bool
deriving DecidableEq, Repr

/-- One of the concrete quantization config objects the module can build. -/
inductive QuantCfg where
  | torchaoInt8
  | quantoInt8
deriving DecidableEq, Repr

/-- Embedding of `quantization.is_quantization_supported`. -/
def is_quantization_supported (b : QuantBackends) (dtype quant_dtype : DType)
    (memory_mode : String) : Bool :=
  if ¬ (b.hasTorchao || b.hasQuanto) then false
  else if memory_mode = "OffloadCPU" then false
  else if quant_dtype = dtype then false
  else true

/-- Embedding of `quantization.get_quantize_model_config`: the pair of
(diffusers, transformers) configs, `(none, none)` when quantization does not
apply. -/
def get_quantize_model_config (b : QuantBackends) (dtype quant_dtype : DType)
    (memory_mode : String) : Option QuantCfg × Option QuantCfg :=
  if ¬ is_quantization_supported b dtype quant_dtype memory_mode then (none, none)
  else if b.hasTorchao then
    if quant_dtype = .int8 then (some .torchaoInt8, some .torchaoInt8) else (none, none)
  else if b.hasQuanto then
    if quant_dtype = .int8 then (some .quantoInt8, some .quantoInt8) else (none, none)
  else (none, none)

/-- A torch model as far as `quantize_model` is concerned: its dtype and
whether in-place quantization has been applied to it. -/
structure QModel where
  dtype : DType
  quantized : Bool
deriving DecidableEq, Repr

/-- Embedding of `quantization.quantize_model`: mutates the model in place
only when supported and the target dtype is int8 under an available
backend. -/
def quantize_model (b : QuantBackends) (model : QModel) (quant_dtype : DType)
    (memory_mode : String) : QModel :=
  if ¬ is_quantization_supported b model.dtype quant_dtype memory_mode then model
  else if b.hasTorchao then
    if quant_dtype = .int8 then { model with quantized := true } else model
  else if b.hasQuanto then
    if quant_dtype = .int8 then { model with quantized := true } else model
  else model

/-! ## `tensorstack.utils.ModelDownloadProgress` -/

/-- One value of the `download_stats` dict: `{"downloaded": .., "total": ..,
"speed": .., "model": ..}` as written by `Update` (in MB, modelled as
rationals). -/
structure FileStat where
  downloaded : ℚ
  total : ℚ
  speed : ℚ
  model : String
deriving DecidableEq, Repr

/-- The tracker's fields; `download_stats` is a CPython dict keyed by
filename, modelled as an insertion-ordered association list. -/
structure ModelDownloadProgress where
  total_per_model : ℕ
  model_index : ℕ
  model_name : String
  download_stats : List (String × FileStat)
  total_models : ℕ
deriving DecidableEq, Repr

/-- `ModelDownloadProgress.__init__` (default `total_per_model = 1000`). -/
def mkTracker (total_models : ℕ) : ModelDownloadProgress :=
  { total_per_model := 1000, model_index := 0, model_name := "",
    download_stats := [], total_models := total_models }

/-- Python `s.startswith(pre)`, computed on the character list so that the
kernel can evaluate it (extensionally equal to `String.startsWith`). -/
def strStartsWith (s pre : String) : Bool :=
  pre.data.isPrefixOf s.data

/-- CPython dict assignment `d[k] = v`: replace in place when the key exists,
append otherwise. -/
def dictSet (stats : List (String × FileStat)) (fn : String) (st : FileStat) :
    List (String × FileStat) :=
  if stats.any (fun p => p.1 == fn) then
    stats.map (fun p => if p.1 == fn then (fn, st) else p)
  else stats ++ [(fn, st)]

namespace ModelDownloadProgress

/-- Embedding of `ModelDownloadProgress.Initialize`: snap every entry whose
filename starts with the previous model name to 100%, switch the context,
then delete entries whose filename starts with the new model name. -/
def Initialize (s : ModelDownloadProgress) (model_index : ℕ) (model_name : String) :
    ModelDownloadProgress :=
  let finalized :=
    if s.model_name ≠ "" then
      s.download_stats.map (fun p =>
        if strStartsWith p.1 s.model_name then (p.1, { p.2 with downloaded := p.2.total })
        else p)
    else s.download_stats
  { s with model_index := model_index, model_name := model_name,
           download_stats := finalized.filter (fun p => !(strStartsWith p.1 model_name)) }

/-- Embedding of `ModelDownloadProgress.Update` (the `_print_progress` output
it triggers is modelled by `overall_progress` below). -/
def Update (s : ModelDownloadProgress) (filename : String)
    (downloaded total speed : ℚ) : ModelDownloadProgress :=
  { s with download_stats :=
      dictSet s.download_stats filename ⟨downloaded, total, speed, s.model_name⟩ }

/-- Embedding of `ModelDownloadProgress.Clear`. -/
def Clear (s : ModelDownloadProgress) : ModelDownloadProgress :=
  { s with model_index := 0, model_name := "", download_stats := [] }

/-- Embedding of `ModelDownloadProgress.Reset`. -/
def Reset (s : ModelDownloadProgress) (total_models : ℕ) : ModelDownloadProgress :=
  Clear { s with total_models := total_models }

end ModelDownloadProgress

/-- Entries of the dict whose stored model tag equals `nm` (the list
comprehension in `_print_progress`). -/
def taggedFiles (nm : String) (L : List (String × FileStat)) :
    List (String × FileStat) :=
  L.filter (fun p => p.2.model == nm)

/-- `current_files` of `_print_progress`. -/
def currentFiles (s : ModelDownloadProgress) : List FileStat :=
  (taggedFiles s.model_name s.download_stats).map Prod.snd

/-- One file's completion ratio: `x["downloaded"] / max(x["total"], 0.001)`. -/
def fileRatio (x : FileStat) : ℚ :=
  x.downloaded / max x.total (1 / 1000)

/-- `model_progress` of `_print_progress`: 0 with no current files, else the
average of the per-file ratios. -/
def model_progress (s : ModelDownloadProgress) : ℚ :=
  if (currentFiles s).length = 0 then 0
  else ((currentFiles s).map fileRatio).sum / ((currentFiles s).length : ℚ)

/-- Python `int()` truncation toward zero on a rational. -/
def ratTrunc (q : ℚ) : ℤ :=
  if 0 ≤ q then ⌊q⌋ else ⌈q⌉

/-- `scaled_model_progress = int(model_progress * total_per_model)`. -/
def scaled_model_progress (s : ModelDownloadProgress) : ℤ :=
  ratTrunc (model_progress s * (s.total_per_model : ℚ))

/-- `overall_progress = model_index * total_per_model + scaled_model_progress`. -/
def overall_progress (s : ModelDownloadProgress) : ℤ :=
  ((s.model_index * s.total_per_model : ℕ) : ℤ) + scaled_model_progress s

/-- `max_progress = total_models * total_per_model`. -/
def max_progress (s : ModelDownloadProgress) : ℤ :=
  ((s.total_models * s.total_per_model : ℕ) : ℤ)

/-- Arguments of one `Update` call. -/
structure UpdateCall where
  filename : String
  downloaded : ℚ
  total : ℚ
  speed : ℚ
deriving DecidableEq, Repr

/-- A sequence of `Update` calls applied in order. -/
def applyUpdates (s : ModelDownloadProgress) (us : List UpdateCall) :
    ModelDownloadProgress :=
  us.foldl (fun t u => ModelDownloadProgress.Update t u.filename u.downloaded u.total u.speed) s

/-- The dict keys are pairwise distinct (true of every reachable state). -/
def keysNodup (L : List (String × FileStat)) : Prop :=
  (L.map Prod.fst).Nodup

/-- Scenario state for the model-switch claim: a fresh tracker, model 0
`text_encoder` started, then an arbitrary sequence of `Update` calls. -/
def teState (m : ℕ) (us : List UpdateCall) : ModelDownloadProgress :=
  applyUpdates ((mkTracker m).Initialize 0 "text_encoder") us

/-- The scenario state after switching to model 1 `transformer`. -/
def switchedState (m : ℕ) (us : List UpdateCall) : ModelDownloadProgress :=
  (teState m us).Initialize 1 "transformer"

/-! ## `Pipelines/StableDiffusionXLPipeline.py` -/

/-- Allocator of fresh object identities: actually loading a sub-model
(checkpoint or `from_pretrained`) is abstracted as drawing a fresh id. -/
structure World where
  counter : ℕ
deriving DecidableEq, Repr

/-- Draw a fresh object id. -/
def alloc (w : World) : ℕ × World :=
  (w.counter, ⟨w.counter + 1⟩)

/-- The five diffusers pipeline classes of `_pipelineMap`. -/
inductive PipeClass where
  | textToImage
  | imageToImage
  | imageInpaint
  | controlNetImage
  | controlNetImageToImage
deriving DecidableEq, Repr

/-- `_pipelineMap[process_type]`; `none` models the `KeyError` raised on an
unknown key. -/
def pipelineMap (process_type : String) : Option PipeClass :=
  if process_type = "TextToImage" then some .textToImage
  else if process_type = "ImageToImage" then some .imageToImage
  else if process_type = "ImageInpaint" then some .imageInpaint
  else if process_type = "ControlNetImage" then some .controlNetImage
  else if process_type = "ControlNetImageToImage" then some .controlNetImageToImage
  else none

/-- An assembled diffusers pipeline: its class and the identities of its
sub-model objects (`None`-able attributes are options). -/
structure Pipe where
  cls : PipeClass
  text_encoder : Option ℕ
  text_encoder_2 : Option ℕ
  unet : Option ℕ
  vae : Option ℕ
  controlnet : Option ℕ
deriving DecidableEq, Repr

/-- The fields of `data_objects.PipelineConfig` this module's control flow
reads. -/
structure PipelineConfig where
  process_type : String
  memory_mode : String
  control_net_path : Option String
deriving DecidableEq, Repr

/-- The module-level globals of `StableDiffusionXLPipeline.py`. -/
structure SDXLModule where
  pipeline : Option Pipe
  processType : Option String
  control_net_path : Option String
  control_net_cache : Option ℕ
  step_latent : Option ℕ
  isMemoryOffload : Bool
  prompt_cache_key : Option (String × Option String)
  prompt_cache_value : Option (String × Option String × Bool)
  cancel_event : Bool
deriving DecidableEq, Repr

/-- The module state right after import. -/
def initModule : SDXLModule :=
  { pipeline := none, processType := none, control_net_path := none,
    control_net_cache := none, step_latent := none, isMemoryOffload := false,
    prompt_cache_key := none, prompt_cache_value := none, cancel_event := false }

/-- Python-level exceptions this module can surface. -/
inductive PyError where
  | keyError
  | operationCanceled
deriving DecidableEq, Repr

/-- Device-placement call performed by `configure_pipeline_memory`. -/
inductive Placement where
  | toDevice
  | sequentialCpuOffload
  | modelCpuOffload
deriving DecidableEq, Repr

/-- Observable effect of `utils.configure_pipeline_memory`: which vae memory
features are enabled, which placement call runs, and the returned offload
flag.  The Python function raises nothing: a `memory_mode` matching no
branch falls through with no placement at all. -/
structure MemEffect where
  vae_tiling : Bool
  vae_slicing : Bool
  placement : Option Placement
  isOffload : Bool
deriving DecidableEq, Repr

/-- Embedding of `utils.configure_pipeline_memory`. -/
def configure_pipeline_memory (memory_mode : String) : MemEffect :=
  { vae_tiling := decide (memory_mode = "OffloadCPU" ∨ memory_mode = "LowMemDevice" ∨
      memory_mode = "LowMemOffloadModel"),
    vae_slicing := decide (memory_mode = "OffloadCPU" ∨ memory_mode = "LowMemDevice" ∨
      memory_mode = "LowMemOffloadModel"),
    placement :=
      if memory_mode = "Device" ∨ memory_mode = "LowMemDevice" then some .toDevice
      else if memory_mode = "OffloadCPU" then some .sequentialCpuOffload
      else if memory_mode = "OffloadModel" ∨ memory_mode = "LowMemOffloadModel" then
        some .modelCpuOffload
      else none,
    isOffload := decide (memory_mode = "OffloadCPU" ∨ memory_mode = "OffloadModel" ∨
      memory_mode = "LowMemOffloadModel") }

/-- Every `memory_mode` value a branch of the code recognizes
(`configure_pipeline_memory` plus `get_device_map`). -/
def declaredMemoryModes : List String :=
  ["Device", "LowMemDevice", "OffloadCPU", "OffloadModel", "LowMemOffloadModel",
   "MultiDevice"]

/-- Embedding of `utils.get_device_map`. -/
def get_device_map (memory_mode : String) : Option String :=
  if memory_mode = "MultiDevice" then some "balanced" else none

/-- Actions performed by `utils.trim_memory`: collector pass, CUDA cache
clear, and the working-set trim that runs only under an offload mode. -/
structure TrimActions where
  gc_collect : Bool
  cuda_empty_cache : Bool
  working_set_trim : Bool
deriving DecidableEq, Repr

/-- Embedding of `utils.trim_memory`. -/
def trim_memory (isMemoryOffload : Bool) : TrimActions :=
  { gc_collect := true, cuda_empty_cache := true,
    working_set_trim := isMemoryOffload }

/-- Embedding of `load_text_encoder`: reuse the sub-model of the assembled
pipeline when present, otherwise load (allocate) a fresh one. -/
def load_text_encoder (s : SDXLModule) (w : World) : ℕ × World :=
  match s.pipeline with
  | some p =>
    match p.text_encoder with
    | some te => (te, w)
    | none => alloc w
  | none => alloc w

/-- Embedding of `load_text_encoder_2`. -/
def load_text_encoder_2 (s : SDXLModule) (w : World) : ℕ × World :=
  match s.pipeline with
  | some p =>
    match p.text_encoder_2 with
    | some te => (te, w)
    | none => alloc w
  | none => alloc w

/-- Embedding of `load_unet`. -/
def load_unet (s : SDXLModule) (w : World) : ℕ × World :=
  match s.pipeline with
  | some p =>
    match p.unet with
    | some u => (u, w)
    | none => alloc w
  | none => alloc w

/-- Embedding of `load_vae`. -/
def load_vae (s : SDXLModule) (w : World) : ℕ × World :=
  match s.pipeline with
  | some p =>
    match p.vae with
    | some v => (v, w)
    | none => alloc w
  | none => alloc w

/-- Embedding of `load_control_net`: reuse the cached control net when the
path is unchanged, clear the cache when no path is configured, otherwise
load a fresh one and cache it. -/
def load_control_net (s : SDXLModule) (w : World) (cfg : PipelineConfig) :
    Option ℕ × SDXLModule × World :=
  if s.control_net_cache.isSome ∧ s.control_net_path = cfg.control_net_path then
    (s.control_net_cache, s, w)
  else if cfg.control_net_path = none then
    (none, { s with control_net_path := none, control_net_cache := none }, w)
  else
    let (cid, w') := alloc w
    (some cid,
     { s with control_net_path := cfg.control_net_path,
              control_net_cache := some cid }, w')

/-- Embedding of `create_pipeline`: load (or reuse) the five sub-models,
then look the pipeline class up in `_pipelineMap` — an unknown
`process_type` raises `KeyError` after the loads ran. -/
def create_pipeline (s : SDXLModule) (w : World) (cfg : PipelineConfig) :
    SDXLModule × World × Except PyError Pipe :=
  let (te, w1) := load_text_encoder s w
  let (te2, w2) := load_text_encoder_2 s w1
  let (un, w3) := load_unet s w2
  let (va, w4) := load_vae s w3
  let (cn, s', w5) := load_control_net s w4 cfg
  match pipelineMap cfg.process_type with
  | none => (s', w5, .error .keyError)
  | some cls =>
    (s', w5, .ok { cls := cls, text_encoder := some te, text_encoder_2 := some te2,
                   unet := some un, vae := some va, controlnet := cn })

/-- Embedding of `load`: build the pipeline, then configure memory and store
the returned offload flag. -/
def load (s : SDXLModule) (w : World) (cfg : PipelineConfig) :
    SDXLModule × World × Except PyError MemEffect :=
  let (s1, w1, r) := create_pipeline
    { s with processType := some cfg.process_type } w cfg
  match r with
  | .error e => (s1, w1, .error e)
  | .ok pipe =>
    let eff := configure_pipeline_memory cfg.memory_mode
    ({ s1 with pipeline := some pipe, isMemoryOffload := eff.isOffload }, w1, .ok eff)

/-- Embedding of `reload`: rebuild the pipeline; the memory configuration's
return value is discarded (`_isMemoryOffload` keeps its old value) and the
prompt cache is left untouched. -/
def reload (s : SDXLModule) (w : World) (cfg : PipelineConfig) :
    SDXLModule × World × Except PyError MemEffect :=
  let (s1, w1, r) := create_pipeline
    { s with processType := some cfg.process_type } w cfg
  match r with
  | .error e => (s1, w1, .error e)
  | .ok pipe =>
    ({ s1 with pipeline := some pipe }, w1,
     .ok (configure_pipeline_memory cfg.memory_mode))

/-- Embedding of `unload`: drop the pipeline and the prompt cache, then trim
memory. -/
def unload (s : SDXLModule) : SDXLModule × TrimActions :=
  ({ s with pipeline := none, prompt_cache_key := none, prompt_cache_value := none },
   trim_memory s.isMemoryOffload)

/-- Embedding of `generateCancel`: set the cancel event. -/
def generateCancel (s : SDXLModule) : SDXLModule :=
  { s with cancel_event := true }

/-- Outcome of the denoising loop: its result, the last captured latent
(`_step_latent`), and how many denoising steps executed. -/
structure RunOut where
  result : Except PyError Unit
  latent : Option ℕ
  executed : ℕ
deriving Repr

/-- The denoising loop with the step-end callback `_progress_callback`
inlined.  Steps are numbered `cur, cur+1, ...`; each iteration runs the
denoiser, then the callback: a set cancel flag (either set before the call
survived uncleared — `flag0` — or set externally while step `c` of
`cancelAt = some c` was in flight) makes the callback raise
`Exception("Operation Canceled")` before it captures that step's latent. -/
def runSteps (flag0 : Bool) (cancelAt : Option ℕ) (cur remaining : ℕ)
    (latent : Option ℕ) (executed : ℕ) : RunOut :=
  match remaining with
  | 0 => { result := .ok (), latent := latent, executed := executed }
  | r + 1 =>
    if flag0 || (match cancelAt with
        | some c => decide (c ≤ cur)
        | none => false) then
      { result := .error .operationCanceled, latent := latent,
        executed := executed + 1 }
    else
      runSteps flag0 cancelAt (cur + 1) r (some cur) (executed + 1)

/-- The fields of `data_objects.PipelineOptions` this module's control flow
reads. -/
structure PipelineOptions where
  prompt : String
  negative_prompt : Option String
  guidance_scale : ℚ
  steps : ℕ
deriving DecidableEq, Repr

/-- `encode_prompt` abstracted: the embedding tensors are determined by the
prompt pair and the classifier-free-guidance flag passed in. -/
def encode_prompt (prompt : String) (negative : Option String) (cfg : Bool) :
    String × Option String × Bool :=
  (prompt, negative, cfg)

/-- Everything observable about one `generate` call: the module state after
it, the returned value or the propagated exception, how many times
`encode_prompt` ran, whether (and how) `trim_memory` ran, and how many
denoising steps executed. -/
structure GenResult where
  state : SDXLModule
  result : Except PyError (List ℕ)
  encodeCalls : ℕ
  trim : Option TrimActions
  executed : ℕ
deriving Repr

/-- Embedding of `generate`: clear the cancel event, compute or reuse the
prompt-embedding cache (single slot keyed by the exact prompt pair), run the
denoising loop over steps `1..steps`, and run `trim_memory` only when the
loop returned normally — an exception propagates before the cleanup line is
reached.  `cancelAt = some n` models `generateCancel` arriving while
denoising step `n` is in flight. -/
def generate (s : SDXLModule) (opts : PipelineOptions) (cancelAt : Option ℕ) :
    GenResult :=
  let s0 := { s with cancel_event := false }
  let key := (opts.prompt, opts.negative_prompt)
  let (encodeCalls, s1) :=
    if s0.prompt_cache_key = some key then (0, s0)
    else
      (1, { s0 with
        prompt_cache_key := some key,
        prompt_cache_value :=
          some (encode_prompt opts.prompt opts.negative_prompt
            (decide (1 < opts.guidance_scale))) })
  let run := runSteps s0.cancel_event cancelAt 1 opts.steps s0.step_latent 0
  let s2 := { s1 with step_latent := run.latent, cancel_event := cancelAt.isSome }
  match run.result with
  | .ok _ =>
    { state := s2, result := .ok [opts.steps], encodeCalls := encodeCalls,
      trim := some (trim_memory s.isMemoryOffload), executed := run.executed }
  | .error e =>
    { state := s2, result := .error e, encodeCalls := encodeCalls,
      trim := none, executed := run.executed }

/-- A representative assembled pipeline for concrete runs. -/
def examplePipe : Pipe :=
  { cls := .textToImage, text_encoder := some 0, text_encoder_2 := some 1,
    unet := some 2, vae := some 3, controlnet := none }

/-- A representative loaded module state for concrete runs. -/
def exampleLoaded : SDXLModule :=
  { initModule with
    pipeline := some examplePipe,
    processType := some "TextToImage" }

/-- Simulation between two tracker states that report identically: same
context, well-formed dicts, the same multiset of current-model entries, and
the second state holds only current-model entries. -/
structure TrackSim (s s' : ModelDownloadProgress) : Prop where
  name_eq : s.model_name = s'.model_name
  index_eq : s.model_index = s'.model_index
  tpm_eq : s.total_per_model = s'.total_per_model
  nodup : keysNodup s.download_stats
  nodup' : keysNodup s'.download_stats
  tagged_perm : List.Perm (taggedFiles s.model_name s.download_stats)
    (taggedFiles s'.model_name s'.download_stats)
  all_tagged' : ∀ p ∈ s'.download_stats, p.2.model = s'.model_name

end TensorStack

namespace TensorStack

/-! ### Helper lemmas about the download-stats dict -/

theorem dictSet_map_fst_of_found (L : List (String × FileStat)) (fn : String)
    (st : FileStat) (h : L.any (fun p => p.1 == fn) = true) :
    (dictSet L fn st).map Prod.fst = L.map Prod.fst := by
  unfold dictSet
  rw [if_pos h, List.map_map]
  refine List.map_congr_left ?_
  intro p _
  by_cases hp : p.1 = fn <;> simp [hp]

theorem dictSet_keysNodup (L : List (String × FileStat)) (fn : String)
    (st : FileStat) (h : keysNodup L) : keysNodup (dictSet L fn st) := by
  unfold keysNodup
  by_cases hf : L.any (fun p => p.1 == fn) = true
  · rw [dictSet_map_fst_of_found L fn st hf]
    exact h
  · unfold dictSet
    rw [if_neg hf, List.map_append]
    simp only [List.map_cons, List.map_nil]
    rw [List.nodup_append]
    refine ⟨h, List.nodup_singleton fn, ?_⟩
    intro a ha hb
    simp only [List.mem_singleton] at hb
    subst hb
    simp only [List.any_eq_true, not_exists, not_and] at hf
    obtain ⟨p, hp, hfst⟩ := List.mem_map.mp ha
    exact absurd (by simpa [hfst]) (by simpa using hf p hp)

theorem mem_dictSet (L : List (String × FileStat)) (fn : String) (st : FileStat)
    (p : String × FileStat) (hp : p ∈ dictSet L fn st) :
    p.2 = st ∨ p ∈ L := by
  unfold dictSet at hp
  by_cases hf : L.any (fun q => q.1 == fn) = true
  · rw [if_pos hf] at hp
    obtain ⟨q, hq, hrep⟩ := List.mem_map.mp hp
    by_cases hqf : q.1 = fn
    · left; simp [hqf] at hrep; simp [← hrep]
    · right
      rw [if_neg (by simpa using hqf)] at hrep
      exact hrep ▸ hq
  · rw [if_neg hf] at hp
    rcases List.mem_append.mp hp with h | h
    · exact Or.inr h
    · left; simp only [List.mem_singleton] at h; simp [h]

theorem keysNodup_cons (q : String × FileStat) (rest : List (String × FileStat))
    (h : keysNodup (q :: rest)) :
    q.1 ∉ rest.map Prod.fst ∧ keysNodup rest := by
  unfold keysNodup at h ⊢
  simp only [List.map_cons, List.nodup_cons] at h
  exact h

theorem filter_ne_key_eq_self (fn : String) (M : List (String × FileStat))
    (h : ∀ p ∈ M, p.1 ≠ fn) :
    M.filter (fun p => !(p.1 == fn)) = M := by
  refine List.filter_eq_self.mpr ?_
  intro p hp
  simpa using h p hp

theorem tagged_keys_sub (nm fn : String) (L : List (String × FileStat))
    (h : fn ∉ L.map Prod.fst) :
    ∀ p ∈ taggedFiles nm L, p.1 ≠ fn := by
  intro p hp hc
  exact h (hc ▸ List.mem_map_of_mem Prod.fst (List.mem_of_mem_filter hp))

theorem tagged_cons (nm : String) (q : String × FileStat)
    (rest : List (String × FileStat)) :
    taggedFiles nm (q :: rest) =
      if q.2.model = nm then q :: taggedFiles nm rest else taggedFiles nm rest := by
  by_cases hq : q.2.model = nm
  · simp [taggedFiles, List.filter_cons, hq]
  · simp [taggedFiles, List.filter_cons, hq]

/-- Splitting the current-model entries at a present key: the tagged entries
are a permutation of the keyed entry in front of the rest. -/
theorem tagged_split (nm fn : String) (old : FileStat)
    (L : List (String × FileStat)) (hnd : keysNodup L) (hmem : (fn, old) ∈ L)
    (htag : old.model = nm) :
    List.Perm (taggedFiles nm L)
      ((fn, old) :: (taggedFiles nm L).filter (fun p => !(p.1 == fn))) := by
  induction L with
  | nil => cases hmem
  | cons q rest ih =>
    obtain ⟨hqnotin, hnd'⟩ := keysNodup_cons q rest hnd
    rcases List.mem_cons.mp hmem with heq | hmem'
    · subst heq
      rw [tagged_cons, if_pos htag, List.filter_cons]
      rw [show ((!((fn, old).1 == fn)) = false) from by simp]
      simp only [Bool.false_eq_true, if_false]
      rw [filter_ne_key_eq_self fn _ (tagged_keys_sub nm fn rest (by simpa using hqnotin))]
    · have hfn_in : fn ∈ rest.map Prod.fst :=
        List.mem_map_of_mem Prod.fst hmem'
      have hqne : q.1 ≠ fn := fun hc => hqnotin (hc ▸ hfn_in)
      have hperm := ih hnd' hmem'
      by_cases hq : q.2.model = nm
      · rw [tagged_cons, if_pos hq, List.filter_cons]
        rw [show ((!(q.1 == fn)) = true) from by simpa using hqne]
        simp only [if_pos]
        exact (hperm.cons q).trans (List.Perm.swap _ _ _)
      · rw [tagged_cons, if_neg hq]
        exact hperm

/-- The replace branch of `dictSet`. -/
theorem tagged_replace (nm fn : String) (st : FileStat)
    (L : List (String × FileStat)) (hnd : keysNodup L) (htag : st.model = nm)
    (hf : L.any (fun p => p.1 == fn) = true) :
    List.Perm
      (taggedFiles nm (L.map (fun p => if p.1 == fn then (fn, st) else p)))
      ((fn, st) :: (taggedFiles nm L).filter (fun p => !(p.1 == fn))) := by
  induction L with
  | nil => simp at hf
  | cons q rest ih =>
    obtain ⟨hqnotin, hnd'⟩ := keysNodup_cons q rest hnd
    by_cases hq : q.1 = fn
    · rw [List.map_cons, if_pos (by simpa using hq)]
      have hrest : rest.map (fun p => if p.1 == fn then (fn, st) else p) = rest := by
        rw [show rest.map (fun p => if p.1 == fn then (fn, st) else p)
              = rest.map id from ?_, List.map_id]
        refine List.map_congr_left ?_
        intro p hp
        have : p.1 ≠ fn := fun hc =>
          hqnotin (by rw [hq]; exact hc ▸ List.mem_map_of_mem Prod.fst hp)
        simp [this]
      rw [hrest]
      rw [tagged_cons nm (fn, st) rest, if_pos htag]
      rw [tagged_cons nm q rest]
      have hfilter := filter_ne_key_eq_self fn (taggedFiles nm rest)
        (tagged_keys_sub nm fn rest (by rw [← hq]; simpa using hqnotin))
      by_cases hqt : q.2.model = nm
      · rw [if_pos hqt, List.filter_cons]
        rw [show ((!(q.1 == fn)) = false) from by simpa using hq]
        simp only [Bool.false_eq_true, if_false, hfilter]
        exact List.Perm.refl _
      · rw [if_neg hqt, hfilter]
    · rw [List.map_cons, if_neg (by simpa using hq)]
      have hf' : rest.any (fun p => p.1 == fn) = true := by
        rcases List.any_eq_true.mp hf with ⟨p, hp, hpf⟩
        rcases List.mem_cons.mp hp with rfl | hp'
        · exact absurd (by simpa using hpf) hq
        · exact List.any_eq_true.mpr ⟨p, hp', hpf⟩
      have hperm := ih hnd' hf'
      by_cases hqt : q.2.model = nm
      · rw [tagged_cons, if_pos hqt, tagged_cons, if_pos hqt, List.filter_cons]
        rw [show ((!(q.1 == fn)) = true) from by simpa using hq]
        simp only [if_pos]
        exact (hperm.cons q).trans (List.Perm.swap _ _ _)
      · rw [tagged_cons, if_neg hqt, tagged_cons, if_neg hqt]
        exact hperm

/-- Writing a current-model entry through `dictSet`: the tagged entries of
the result are a permutation of the new entry in front of the other tagged
entries. -/
theorem tagged_dictSet (nm fn : String) (st : FileStat)
    (L : List (String × FileStat)) (hnd : keysNodup L) (htag : st.model = nm) :
    List.Perm (taggedFiles nm (dictSet L fn st))
      ((fn, st) :: (taggedFiles nm L).filter (fun p => !(p.1 == fn))) := by
  unfold dictSet
  by_cases hf : L.any (fun p => p.1 == fn) = true
  · rw [if_pos hf]
    exact tagged_replace nm fn st L hnd htag hf
  · rw [if_neg hf]
    have hnotin : fn ∉ L.map Prod.fst := by
      simp only [List.any_eq_true, not_exists, not_and] at hf
      intro hc
      obtain ⟨p, hp, hfst⟩ := List.mem_map.mp hc
      exact absurd (by simpa [hfst]) (by simpa using hf p hp)
    rw [show taggedFiles nm (L ++ [(fn, st)]) = taggedFiles nm L ++ [(fn, st)] from by
      simp [taggedFiles, List.filter_append, htag]]
    rw [filter_ne_key_eq_self fn _ (tagged_keys_sub nm fn L hnotin)]
    exact List.perm_append_singleton _ _

/-! ### Congruence and preservation lemmas for the tracker -/

theorem model_progress_congr (s s' : ModelDownloadProgress)
    (hp : List.Perm (taggedFiles s.model_name s.download_stats)
      (taggedFiles s'.model_name s'.download_stats)) :
    model_progress s = model_progress s' := by
  have hmap : List.Perm (currentFiles s) (currentFiles s') := hp.map Prod.snd
  have hlen : (currentFiles s).length = (currentFiles s').length := hmap.length_eq
  have hsum : ((currentFiles s).map fileRatio).sum
      = ((currentFiles s').map fileRatio).sum := (hmap.map fileRatio).sum_eq
  unfold model_progress
  rw [hlen, hsum]

theorem ratTrunc_mono (q r : ℚ) (h : q ≤ r) : ratTrunc q ≤ ratTrunc r := by
  unfold ratTrunc
  by_cases hq : 0 ≤ q
  · rw [if_pos hq, if_pos (le_trans hq h)]
    exact Int.floor_le_floor h
  · rw [if_neg hq]
    by_cases hr : 0 ≤ r
    · rw [if_pos hr]
      refine le_trans (Int.ceil_le.mpr ?_) (Int.floor_nonneg.mpr hr)
      exact_mod_cast le_of_lt (lt_of_not_ge hq)
    · rw [if_neg hr]
      exact Int.ceil_le_ceil h

theorem keysNodup_filter (pr : String × FileStat → Bool)
    (L : List (String × FileStat)) (h : keysNodup L) :
    keysNodup (L.filter pr) := by
  unfold keysNodup at h ⊢
  exact List.Nodup.sublist ((L.filter_sublist).map Prod.fst) h

theorem keys_map_preserve (f : String × FileStat → String × FileStat)
    (hf : ∀ p, (f p).1 = p.1) (L : List (String × FileStat)) :
    (L.map f).map Prod.fst = L.map Prod.fst := by
  rw [List.map_map]
  refine List.map_congr_left ?_
  intro p _
  exact hf p

theorem Initialize_keysNodup (s : ModelDownloadProgress) (i : ℕ) (nm : String)
    (h : keysNodup s.download_stats) :
    keysNodup ((s.Initialize i nm).download_stats) := by
  unfold ModelDownloadProgress.Initialize
  refine keysNodup_filter _ _ ?_
  by_cases hn : s.model_name ≠ ""
  · rw [if_pos hn]
    unfold keysNodup
    rw [keys_map_preserve]
    · exact h
    · intro p
      by_cases hp : strStartsWith p.1 s.model_name <;> simp [hp]
  · rw [if_neg hn]
    exact h

theorem Update_keysNodup (s : ModelDownloadProgress) (fn : String)
    (d t sp : ℚ) (h : keysNodup s.download_stats) :
    keysNodup ((s.Update fn d t sp).download_stats) :=
  dictSet_keysNodup s.download_stats fn _ h

theorem applyUpdates_cons (s : ModelDownloadProgress) (u : UpdateCall)
    (us : List UpdateCall) :
    applyUpdates s (u :: us)
      = applyUpdates (s.Update u.filename u.downloaded u.total u.speed) us := rfl

theorem applyUpdates_model_name (s : ModelDownloadProgress) (us : List UpdateCall) :
    (applyUpdates s us).model_name = s.model_name := by
  induction us generalizing s with
  | nil => rfl
  | cons u us ih => rw [applyUpdates_cons]; exact ih _

theorem applyUpdates_model_index (s : ModelDownloadProgress) (us : List UpdateCall) :
    (applyUpdates s us).model_index = s.model_index := by
  induction us generalizing s with
  | nil => rfl
  | cons u us ih => rw [applyUpdates_cons]; exact ih _

theorem applyUpdates_tpm (s : ModelDownloadProgress) (us : List UpdateCall) :
    (applyUpdates s us).total_per_model = s.total_per_model := by
  induction us generalizing s with
  | nil => rfl
  | cons u us ih => rw [applyUpdates_cons]; exact ih _

theorem applyUpdates_keysNodup (s : ModelDownloadProgress) (us : List UpdateCall)
    (h : keysNodup s.download_stats) :
    keysNodup ((applyUpdates s us).download_stats) := by
  induction us generalizing s with
  | nil => exact h
  | cons u us ih =>
    rw [applyUpdates_cons]
    exact ih _ (Update_keysNodup s _ _ _ _ h)

theorem applyUpdates_all_tagged (s : ModelDownloadProgress) (us : List UpdateCall)
    (nm : String) (hn : s.model_name = nm)
    (h : ∀ p ∈ s.download_stats, p.2.model = nm) :
    ∀ p ∈ (applyUpdates s us).download_stats, p.2.model = nm := by
  induction us generalizing s with
  | nil => exact h
  | cons u us ih =>
    rw [applyUpdates_cons]
    refine ih _ hn ?_
    intro p hp
    rcases mem_dictSet s.download_stats u.filename _ p hp with hst | hmem
    · rw [hst, hn]
    · exact h p hmem

theorem TrackSim.update (s s' : ModelDownloadProgress) (hsim : TrackSim s s')
    (fn : String) (d t sp : ℚ) :
    TrackSim (s.Update fn d t sp) (s'.Update fn d t sp) := by
  obtain ⟨hname, hindex, htpm, hnd, hnd', hperm, htag'⟩ := hsim
  refine ⟨hname, hindex, htpm, Update_keysNodup s fn d t sp hnd,
    Update_keysNodup s' fn d t sp hnd', ?_, ?_⟩
  · show List.Perm
      (taggedFiles s.model_name (dictSet s.download_stats fn ⟨d, t, sp, s.model_name⟩))
      (taggedFiles s'.model_name (dictSet s'.download_stats fn ⟨d, t, sp, s'.model_name⟩))
    rw [← hname] at hperm ⊢
    have h1 := tagged_dictSet s.model_name fn
      ⟨d, t, sp, s.model_name⟩ s.download_stats hnd rfl
    have h2 := tagged_dictSet s.model_name fn
      ⟨d, t, sp, s.model_name⟩ s'.download_stats hnd' rfl
    exact h1.trans ((List.Perm.cons _ (hperm.filter _)).trans h2.symm)
  · intro p hp
    rcases mem_dictSet s'.download_stats fn _ p hp with hst | hmem
    · rw [hst]
      rfl
    · exact htag' p hmem

theorem TrackSim.applyUpdates (s s' : ModelDownloadProgress)
    (hsim : TrackSim s s') (us : List UpdateCall) :
    TrackSim (TensorStack.applyUpdates s us) (TensorStack.applyUpdates s' us) := by
  induction us generalizing s s' with
  | nil => exact hsim
  | cons u us ih =>
    rw [applyUpdates_cons, applyUpdates_cons]
    exact ih _ _ (hsim.update _ _ _ _ _ _)

/-- C6 counterexample: within one model's lifetime (same `model_index`,
`total_models`), an `Update` call that reports a lower downloaded amount for
an already-tracked file makes `overall_progress` drop from 1000 to 0, so the
reported progress is not monotone over arbitrary `Update` sequences. -/
theorem C6_progress_monotonic_cx :
    overall_progress
        (((mkTracker 4).Initialize 0 "text_encoder").Update "f" 10 10 1) = 1000 ∧
    overall_progress
        ((((mkTracker 4).Initialize 0 "text_encoder").Update "f" 10 10 1).Update
          "f" 0 10 1) = 0 ∧
    ((((mkTracker 4).Initialize 0 "text_encoder").Update "f" 10 10 1).Update
          "f" 0 10 1).model_index
      = (((mkTracker 4).Initialize 0 "text_encoder").Update "f" 10 10 1).model_index ∧
    ¬ ((1000 : ℤ) ≤ 0) := by
  refine ⟨?_, ?_, rfl, by norm_num⟩
  · simp [overall_progress, scaled_model_progress, model_progress, currentFiles,
      taggedFiles, fileRatio, ratTrunc, mkTracker, ModelDownloadProgress.Update,
      ModelDownloadProgress.Initialize, dictSet]
    norm_num
  · simp [overall_progress, scaled_model_progress, model_progress, currentFiles,
      taggedFiles, fileRatio, ratTrunc, mkTracker, ModelDownloadProgress.Update,
      ModelDownloadProgress.Initialize, dictSet]

/-- C6 amended: within a model's lifetime, `overall_progress` never decreases
across an `Update` that overwrites a file already tracked for the current
model with a completion ratio at least as large as before; an `Update` that
lowers a file's ratio (or introduces a new file into the average) can lower
it, as the counterexample shows. -/
theorem C6_progress_monotonic_amended (s : ModelDownloadProgress) (fn : String)
    (old : FileStat) (d t sp : ℚ)
    (hnd : keysNodup s.download_stats)
    (hmem : (fn, old) ∈ s.download_stats)
    (htag : old.model = s.model_name)
    (hr : fileRatio old ≤ fileRatio ⟨d, t, sp, s.model_name⟩) :
    overall_progress s ≤ overall_progress (s.Update fn d t sp) := by
  have hA := tagged_split s.model_name fn old s.download_stats hnd hmem htag
  have hB := tagged_dictSet s.model_name fn ⟨d, t, sp, s.model_name⟩
    s.download_stats hnd rfl
  have hcf1 : List.Perm (currentFiles s)
      (old :: ((taggedFiles s.model_name s.download_stats).filter
        (fun p => !(p.1 == fn))).map Prod.snd) := by
    simpa [currentFiles] using hA.map Prod.snd
  have hcf2 : List.Perm (currentFiles (s.Update fn d t sp))
      ((⟨d, t, sp, s.model_name⟩ : FileStat) ::
        ((taggedFiles s.model_name s.download_stats).filter
          (fun p => !(p.1 == fn))).map Prod.snd) := by
    simpa [currentFiles, ModelDownloadProgress.Update] using hB.map Prod.snd
  have hlen1 := hcf1.length_eq
  have hlen2 := hcf2.length_eq
  have hsum1 := (hcf1.map fileRatio).sum_eq
  have hsum2 := (hcf2.map fileRatio).sum_eq
  simp only [List.length_cons, List.map_cons, List.sum_cons] at hlen1 hlen2 hsum1 hsum2
  show (((s.model_index * s.total_per_model : ℕ) : ℤ) + scaled_model_progress s ≤
    ((s.model_index * s.total_per_model : ℕ) : ℤ) + scaled_model_progress (s.Update fn d t sp))
  refine add_le_add_left (ratTrunc_mono _ _ ?_) _
  have htpm : (s.Update fn d t sp).total_per_model = s.total_per_model := rfl
  rw [htpm]
  refine mul_le_mul_of_nonneg_right ?_ (by positivity)
  unfold model_progress
  rw [hlen1, hlen2, hsum1, hsum2]
  rw [if_neg (Nat.succ_ne_zero _), if_neg (Nat.succ_ne_zero _)]
  push_cast
  gcongr

theorem teState_model_name (m : ℕ) (us : List UpdateCall) :
    (teState m us).model_name = "text_encoder" :=
  (applyUpdates_model_name _ _).trans rfl

theorem teState_all_tagged (m : ℕ) (us : List UpdateCall) :
    ∀ p ∈ (teState m us).download_stats, p.2.model = "text_encoder" := by
  refine applyUpdates_all_tagged _ us "text_encoder" rfl ?_
  intro p hp
  rw [show ((mkTracker m).Initialize 0 "text_encoder").download_stats = [] from rfl] at hp
  cases hp

theorem teState_keysNodup (m : ℕ) (us : List UpdateCall) :
    keysNodup (teState m us).download_stats := by
  refine applyUpdates_keysNodup _ us ?_
  rw [show ((mkTracker m).Initialize 0 "text_encoder").download_stats = [] from rfl]
  exact List.nodup_nil

theorem switchedState_stats (m : ℕ) (us : List UpdateCall) :
    (switchedState m us).download_stats
      = ((teState m us).download_stats.map (fun p =>
          if strStartsWith p.1 "text_encoder" then
            (p.1, { p.2 with downloaded := p.2.total })
          else p)).filter (fun p => !(strStartsWith p.1 "transformer")) := by
  unfold switchedState ModelDownloadProgress.Initialize
  simp only [teState_model_name m us]
  rw [if_pos (show ("text_encoder" : String) ≠ "" by decide)]

theorem switchedState_tagged_nil (m : ℕ) (us : List UpdateCall) :
    taggedFiles (switchedState m us).model_name (switchedState m us).download_stats
      = [] := by
  rw [show (switchedState m us).model_name = "transformer" from rfl]
  refine List.filter_eq_nil_iff.mpr ?_
  intro p hp
  rw [switchedState_stats] at hp
  obtain ⟨q, hq, hpq⟩ := List.mem_map.mp (List.mem_of_mem_filter hp)
  have hqmodel := teState_all_tagged m us q hq
  have hpmodel : p.2.model = "text_encoder" := by
    by_cases hqpre : strStartsWith q.1 "text_encoder"
    · rw [if_pos hqpre] at hpq
      rw [← hpq]
      exact hqmodel
    · rw [if_neg hqpre] at hpq
      rw [← hpq]
      exact hqmodel
  simp [hpmodel]

/-- C7 counterexample: a partial entry recorded while `text_encoder` was
current whose filename does not carry the model-name prefix (as the tqdm
integration records them) survives `Initialize(1, "transformer")` with its
partial value, not at 100%. -/
theorem C7_model_switch_cx :
    (("weights.safetensors", (⟨5, 10, 1, "text_encoder"⟩ : FileStat)) ∈
      ((((mkTracker 4).Initialize 0 "text_encoder").Update
        "weights.safetensors" 5 10 1).Initialize 1 "transformer").download_stats) ∧
    (5 : ℚ) ≠ 10 := by
  refine ⟨by decide, by norm_num⟩

/-- C7 amended: after `Initialize(0, "text_encoder")`, arbitrary `Update`
calls, then `Initialize(1, "transformer")`: entries whose filename starts
with `text_encoder` are finalized to 100% (others keep their last partial
value); every surviving entry is still tagged `text_encoder`, so none of
them is in the `transformer` current-file set — the average starts from an
empty set (overall progress exactly 1000) and every later report equals the
report of a tracker with those stale entries erased. -/
theorem C7_model_switch_amended (m : ℕ) (us us2 : List UpdateCall) :
    (∀ p ∈ (switchedState m us).download_stats,
      strStartsWith p.1 "text_encoder" = true → p.2.downloaded = p.2.total) ∧
    (∀ p ∈ (switchedState m us).download_stats, p.2.model = "text_encoder") ∧
    currentFiles (switchedState m us) = [] ∧
    overall_progress (switchedState m us) = 1000 ∧
    model_progress (applyUpdates (switchedState m us) us2)
      = model_progress
          (applyUpdates { switchedState m us with download_stats := [] } us2) := by
  refine ⟨?_, ?_, ?_, ?_, ?_⟩
  · intro p hp hpre
    rw [switchedState_stats] at hp
    obtain ⟨q, hq, hpq⟩ := List.mem_map.mp (List.mem_of_mem_filter hp)
    by_cases hqpre : strStartsWith q.1 "text_encoder"
    · rw [if_pos hqpre] at hpq
      rw [← hpq]
    · rw [if_neg hqpre] at hpq
      rw [← hpq] at hpre
      exact absurd hpre (by simp [hqpre])
  · intro p hp
    rw [switchedState_stats] at hp
    obtain ⟨q, hq, hpq⟩ := List.mem_map.mp (List.mem_of_mem_filter hp)
    have hqmodel := teState_all_tagged m us q hq
    by_cases hqpre : strStartsWith q.1 "text_encoder"
    · rw [if_pos hqpre] at hpq
      rw [← hpq]
      exact hqmodel
    · rw [if_neg hqpre] at hpq
      rw [← hpq]
      exact hqmodel
  · unfold currentFiles
    rw [switchedState_tagged_nil]
    rfl
  · have hcf : currentFiles (switchedState m us) = [] := by
      unfold currentFiles
      rw [switchedState_tagged_nil]
      rfl
    have htpm : (switchedState m us).total_per_model = 1000 := by
      show (teState m us).total_per_model = 1000
      exact (applyUpdates_tpm _ _).trans rfl
    unfold overall_progress scaled_model_progress model_progress
    rw [hcf, htpm]
    rw [show (switchedState m us).model_index = 1 from rfl]
    norm_num [ratTrunc]
  · have hsim : TrackSim (switchedState m us)
        { switchedState m us with download_stats := [] } := by
      refine ⟨rfl, rfl, rfl, Initialize_keysNodup _ _ _ (teState_keysNodup m us),
        ?_, ?_, ?_⟩
      · show keysNodup ([] : List (String × FileStat))
        exact List.nodup_nil
      · rw [switchedState_tagged_nil]
        exact List.Perm.refl _
      · intro p hp
        cases hp
    exact model_progress_congr _ _ (hsim.applyUpdates _ _ us2).tagged_perm

/-- Witness for the amended C7 at concrete inputs: a prefixed file is read
back complete, and the first transformer-phase report ignores the stale
text-encoder entry. -/
theorem C7_model_switch_amended_witness :
    ((⟨10, 10, 1, "text_encoder"⟩ : FileStat).downloaded
        = (⟨10, 10, 1, "text_encoder"⟩ : FileStat).total) ∧
    model_progress (applyUpdates
        (switchedState 4 [⟨"weights.safetensors", 5, 10, 1⟩]) [⟨"a", 1, 2, 1⟩])
      = model_progress (applyUpdates
          { switchedState 4 [⟨"weights.safetensors", 5, 10, 1⟩] with
              download_stats := [] } [⟨"a", 1, 2, 1⟩]) := by
  constructor
  · exact (C7_model_switch_amended 4 [⟨"text_encoder/model.bin", 10, 10, 1⟩] []).1
      ("text_encoder/model.bin", ⟨10, 10, 1, "text_encoder"⟩) (by decide) (by decide)
  · exact (C7_model_switch_amended 4 [⟨"weights.safetensors", 5, 10, 1⟩]
      [⟨"a", 1, 2, 1⟩]).2.2.2.2

/-- C10: the report computation triggered by every `Update` is total and
divides by nothing that can be zero: with no current files the model
progress is zero; every per-file denominator `max(total, 0.001)` is strictly
positive, including for a reported total of 0, where the ratio becomes
`downloaded * 1000`; and the averaging denominator is the file count, which
is nonzero on the branch that divides by it. -/
theorem C10_report_total_no_div_by_zero (s : ModelDownloadProgress)
    (d sp : ℚ) :
    ((currentFiles s).length = 0 → model_progress s = 0) ∧
    (∀ x ∈ currentFiles s, (0 : ℚ) < max x.total (1 / 1000)) ∧
    ((currentFiles s).length ≠ 0 →
      model_progress s
          = ((currentFiles s).map fileRatio).sum / ((currentFiles s).length : ℚ) ∧
      ((currentFiles s).length : ℚ) ≠ 0) ∧
    fileRatio ⟨d, 0, sp, s.model_name⟩ = d * 1000 := by
  refine ⟨?_, ?_, ?_, ?_⟩
  · intro h
    unfold model_progress
    rw [if_pos h]
  · intro x _
    exact lt_max_of_lt_right (by norm_num)
  · intro h
    refine ⟨?_, ?_⟩
    · unfold model_progress
      rw [if_neg h]
    · exact_mod_cast h
  · show d / max 0 (1 / 1000) = d * 1000
    rw [max_eq_right (by norm_num : (0 : ℚ) ≤ 1 / 1000)]
    rw [div_eq_iff (by norm_num : (1 / 1000 : ℚ) ≠ 0)]
    ring

/-- Witness for C10 at a concrete tracker with one current file. -/
theorem C10_report_total_no_div_by_zero_witness :
    ((currentFiles (((mkTracker 1).Initialize 0 "m").Update "f" 1 2 1)).length : ℚ) ≠ 0 ∧
    fileRatio ⟨3, 0, 1, (((mkTracker 1).Initialize 0 "m").Update "f" 1 2 1).model_name⟩
      = 3 * 1000 := by
  refine ⟨?_, ?_⟩
  · exact ((C10_report_total_no_div_by_zero
      (((mkTracker 1).Initialize 0 "m").Update "f" 1 2 1) 3 1).2.2.1 (by decide)).2
  · exact (C10_report_total_no_div_by_zero
      (((mkTracker 1).Initialize 0 "m").Update "f" 1 2 1) 3 1).2.2.2

/-- Witness for the amended C6 at a concrete tracker state: raising the only
file of the current model from 5/10 to 7/10 does not lower the overall
progress. -/
theorem C6_progress_monotonic_amended_witness :
    overall_progress (((mkTracker 4).Initialize 0 "m").Update "f" 5 10 1) ≤
      overall_progress ((((mkTracker 4).Initialize 0 "m").Update "f" 5 10 1).Update
        "f" 7 10 1) := by
  refine C6_progress_monotonic_amended _ "f" ⟨5, 10, 1, "m"⟩ 7 10 1 ?_ ?_ ?_ ?_
  · show keysNodup [("f", (⟨5, 10, 1, "m"⟩ : FileStat))]
    simp [keysNodup]
  · decide
  · rfl
  · show fileRatio ⟨5, 10, 1, "m"⟩ ≤ fileRatio ⟨7, 10, 1, "m"⟩
    simp [fileRatio]
    norm_num

/-! ### Lemmas about the denoising loop -/

theorem runSteps_complete (cur remaining : ℕ) (lat : Option ℕ) (e : ℕ) :
    runSteps false none cur remaining lat e
      = { result := .ok (),
          latent := if remaining = 0 then lat else some (cur + remaining - 1),
          executed := e + remaining } := by
  induction remaining generalizing cur lat e with
  | zero => simp [runSteps]
  | succ r ih =>
    simp only [runSteps, Bool.false_or]
    rw [ih]
    have hl : (if r = 0 then some cur else some (cur + 1 + r - 1))
        = (if r + 1 = 0 then lat else some (cur + (r + 1) - 1)) := by
      rw [if_neg (Nat.succ_ne_zero r)]
      by_cases hr : r = 0
      · subst hr
        simp
      · rw [if_neg hr]
        congr 1
        omega
    rw [hl]
    have he : e + 1 + r = e + (r + 1) := by omega
    rw [he]
    simp

theorem runSteps_cancel (N cur remaining : ℕ) (lat : Option ℕ) (e : ℕ)
    (h1 : cur ≤ N) (h2 : N < cur + remaining) :
    runSteps false (some N) cur remaining lat e
      = { result := .error .operationCanceled,
          latent := if N = cur then lat else some (N - 1),
          executed := e + (N - cur) + 1 } := by
  induction remaining generalizing cur lat e with
  | zero => omega
  | succ r ih =>
    simp only [runSteps, Bool.false_or]
    by_cases hc : N ≤ cur
    · have hNc : N = cur := le_antisymm hc h1
      rw [show (decide (N ≤ cur)) = true from decide_eq_true hc]
      rw [if_pos rfl]
      subst hNc
      rw [if_pos rfl]
      congr 1
      omega
    · rw [show (decide (N ≤ cur)) = false from decide_eq_false hc]
      rw [if_neg (by simp)]
      rw [ih (cur + 1) (some cur) (e + 1) (by omega) (by omega)]
      have hne : ¬ N = cur := fun hh => hc (le_of_eq hh)
      rw [if_neg hne]
      congr 1
      · by_cases h0 : N = cur + 1
        · rw [if_pos h0]
          congr 1
          omega
        · rw [if_neg h0]
      · omega

/-- C1 counterexample: a generation canceled at step 1 propagates the
`Operation Canceled` exception and the memory-reclaim step does not run —
`generate` has no try/finally, so `trim_memory` is only reached on the
success path. -/
theorem C1_trim_after_generate_cx :
    (generate exampleLoaded ⟨"a cat", none, 1, 2⟩ (some 1)).result
        = .error .operationCanceled ∧
    (generate exampleLoaded ⟨"a cat", none, 1, 2⟩ (some 1)).trim = none :=
  ⟨rfl, rfl⟩

/-- C1 amended: the memory-reclaim step (collector pass, CUDA cache clear,
working-set trim when the memory mode is an offload mode) runs after the
generation loop only when the loop returns samples; when the loop raises
(including the cancellation path) the exception propagates to the caller
without the reclaim step running. -/
theorem C1_trim_after_generate_amended (s : SDXLModule) (opts : PipelineOptions)
    (cancelAt : Option ℕ) :
    (∀ v, (generate s opts cancelAt).result = .ok v →
      (generate s opts cancelAt).trim = some (trim_memory s.isMemoryOffload)) ∧
    (∀ e, (generate s opts cancelAt).result = .error e →
      (generate s opts cancelAt).trim = none) := by
  unfold generate
  dsimp only
  rcases hr : runSteps false cancelAt 1 opts.steps s.step_latent 0 with ⟨res, lat, ex⟩
  cases res with
  | ok v => exact ⟨fun _ _ => rfl, fun e he => Except.noConfusion he⟩
  | error e => exact ⟨fun v hv => Except.noConfusion hv, fun _ _ => rfl⟩

/-- Witness for the amended C1: on a completed run the reclaim step runs
with the working-set trim following the offload flag, on a canceled run it
does not run. -/
theorem C1_trim_after_generate_amended_witness :
    (generate exampleLoaded ⟨"a cat", none, 1, 1⟩ none).trim
        = some (trim_memory exampleLoaded.isMemoryOffload) ∧
    (generate exampleLoaded ⟨"a cat", none, 1, 2⟩ (some 1)).trim = none :=
  ⟨(C1_trim_after_generate_amended exampleLoaded ⟨"a cat", none, 1, 1⟩ none).1
      [1] rfl,
   (C1_trim_after_generate_amended exampleLoaded ⟨"a cat", none, 1, 2⟩
      (some 1)).2 .operationCanceled rfl⟩

/-- C2: a cancellation arriving while denoising step `N` is in flight makes
the next step-end callback raise `OperationCanceled`; exactly the `N` first
steps execute, the call returns a failure carrying no sample buffer, and the
step latent afterwards is the one captured at the last step whose callback
completed (step `N - 1`; for `N = 1` the pre-call latent).  A cancel flag
left over from before the call is cleared on entry: it does not affect the
call, and with no new cancellation the call completes. -/
theorem C2_cancellation_semantics (s : SDXLModule) (opts : PipelineOptions)
    (N : ℕ) (h1 : 1 ≤ N) (h2 : N ≤ opts.steps) :
    ((generate s opts (some N)).result = .error .operationCanceled) ∧
    ((generate s opts (some N)).executed = N) ∧
    ((generate s opts (some N)).state.step_latent
        = if N = 1 then s.step_latent else some (N - 1)) ∧
    (generate { s with cancel_event := true } opts (some N)
        = generate { s with cancel_event := false } opts (some N)) ∧
    ((generate { s with cancel_event := true } opts none).result
        = .ok [opts.steps]) := by
  have hrun := runSteps_cancel N 1 opts.steps s.step_latent 0 h1 (by omega)
  have hcomp := runSteps_complete 1 opts.steps s.step_latent 0
  refine ⟨?_, ?_, ?_, rfl, ?_⟩
  · unfold generate
    dsimp only
    rw [hrun]
  · unfold generate
    dsimp only
    rw [hrun]
    dsimp only
    omega
  · unfold generate
    dsimp only
    rw [hrun]
  · unfold generate
    dsimp only
    rw [hcomp]

/-- How one `generate` call treats the single-slot prompt cache: the slot
always holds the call's key afterwards; a matching key computes nothing and
keeps the cached value; a different (or empty) key computes once and
replaces the slot. -/
theorem generate_cache (s : SDXLModule) (opts : PipelineOptions)
    (cancelAt : Option ℕ) :
    ((generate s opts cancelAt).state.prompt_cache_key
        = some (opts.prompt, opts.negative_prompt)) ∧
    (s.prompt_cache_key = some (opts.prompt, opts.negative_prompt) →
      (generate s opts cancelAt).encodeCalls = 0 ∧
      (generate s opts cancelAt).state.prompt_cache_value = s.prompt_cache_value) ∧
    (s.prompt_cache_key ≠ some (opts.prompt, opts.negative_prompt) →
      (generate s opts cancelAt).encodeCalls = 1 ∧
      (generate s opts cancelAt).state.prompt_cache_value
        = some (encode_prompt opts.prompt opts.negative_prompt
            (decide (1 < opts.guidance_scale)))) := by
  unfold generate
  dsimp only
  by_cases hkey : s.prompt_cache_key = some (opts.prompt, opts.negative_prompt)
  · rw [if_pos hkey]
    rcases hr : runSteps false cancelAt 1 opts.steps s.step_latent 0 with ⟨res, lat, ex⟩
    cases res with
    | ok v => exact ⟨hkey, fun _ => ⟨rfl, rfl⟩, fun hne => absurd hkey hne⟩
    | error e => exact ⟨hkey, fun _ => ⟨rfl, rfl⟩, fun hne => absurd hkey hne⟩
  · rw [if_neg hkey]
    rcases hr : runSteps false cancelAt 1 opts.steps s.step_latent 0 with ⟨res, lat, ex⟩
    cases res with
    | ok v => exact ⟨rfl, fun h => absurd h hkey, fun _ => ⟨rfl, rfl⟩⟩
    | error e => exact ⟨rfl, fun h => absurd h hkey, fun _ => ⟨rfl, rfl⟩⟩

/-- C4 counterexample: three consecutive `generate` calls with the same
prompt pair — the second and the third form two consecutive calls with
identical prompts in which the embedding computation runs zero times, not
exactly once. -/
theorem C4_prompt_cache_cx :
    (generate exampleLoaded ⟨"a cat", none, 1, 1⟩ none).encodeCalls = 1 ∧
    (generate (generate exampleLoaded ⟨"a cat", none, 1, 1⟩ none).state
        ⟨"a cat", none, 1, 1⟩ none).encodeCalls = 0 ∧
    (generate (generate (generate exampleLoaded ⟨"a cat", none, 1, 1⟩ none).state
        ⟨"a cat", none, 1, 1⟩ none).state ⟨"a cat", none, 1, 1⟩ none).encodeCalls
      = 0 ∧
    ¬ ((0 : ℕ) + 0 = 1) :=
  ⟨rfl, rfl, rfl, by decide⟩

/-- C4 amended: across two consecutive `generate` calls with identical
prompt and negative prompt the embedding computation runs at most once: the
second call always reuses the cache with zero recomputation, and the first
call computes exactly once when — and only when — the single cache slot does
not already hold that key (it holds it when an earlier call already used the
same prompts); changing either prompt or negative prompt forces
recomputation and replaces the single slot. -/
theorem C4_prompt_cache_amended (s : SDXLModule) (o1 o2 : PipelineOptions)
    (c1 c2 : Option ℕ) (hp : o1.prompt = o2.prompt)
    (hn : o1.negative_prompt = o2.negative_prompt) :
    ((generate (generate s o1 c1).state o2 c2).encodeCalls = 0) ∧
    ((generate s o1 c1).encodeCalls ≤ 1) ∧
    ((generate s o1 c1).state.prompt_cache_key
        = some (o1.prompt, o1.negative_prompt)) ∧
    (∀ (o3 : PipelineOptions) (c3 : Option ℕ),
      s.prompt_cache_key ≠ some (o3.prompt, o3.negative_prompt) →
      (generate s o3 c3).encodeCalls = 1 ∧
      (generate s o3 c3).state.prompt_cache_key
          = some (o3.prompt, o3.negative_prompt) ∧
      (generate s o3 c3).state.prompt_cache_value
          = some (encode_prompt o3.prompt o3.negative_prompt
              (decide (1 < o3.guidance_scale)))) ∧
    (∀ (o3 : PipelineOptions) (c3 : Option ℕ),
      s.prompt_cache_key = some (o3.prompt, o3.negative_prompt) →
      (generate s o3 c3).encodeCalls = 0) := by
  obtain ⟨hk1, hhit1, hmiss1⟩ := generate_cache s o1 c1
  refine ⟨?_, ?_, hk1, ?_, ?_⟩
  · have hkey2 : (generate s o1 c1).state.prompt_cache_key
        = some (o2.prompt, o2.negative_prompt) := by rw [hk1, hp, hn]
    exact ((generate_cache (generate s o1 c1).state o2 c2).2.1 hkey2).1
  · by_cases h : s.prompt_cache_key = some (o1.prompt, o1.negative_prompt)
    · rw [(hhit1 h).1]
      omega
    · rw [(hmiss1 h).1]
  · intro o3 c3 h
    obtain ⟨k, _, mm⟩ := generate_cache s o3 c3
    exact ⟨(mm h).1, k, (mm h).2⟩
  · intro o3 c3 h
    exact ((generate_cache s o3 c3).2.1 h).1

/-- Witness for the amended C4: from a fresh pipeline the second same-prompt
call computes nothing, and a differing prompt computes once. -/
theorem C4_prompt_cache_amended_witness :
    ((generate (generate exampleLoaded ⟨"a cat", none, 1, 1⟩ none).state
        ⟨"a cat", none, 1, 1⟩ none).encodeCalls = 0) ∧
    ((generate exampleLoaded ⟨"a dog", none, 1, 1⟩ none).encodeCalls = 1) :=
  ⟨(C4_prompt_cache_amended exampleLoaded ⟨"a cat", none, 1, 1⟩
      ⟨"a cat", none, 1, 1⟩ none none rfl rfl).1,
   ((C4_prompt_cache_amended exampleLoaded ⟨"a dog", none, 1, 1⟩
      ⟨"a dog", none, 1, 1⟩ none none rfl rfl).2.2.2.1 ⟨"a dog", none, 1, 1⟩ none
      (by simp [exampleLoaded, initModule])).1⟩

/-- `load_control_net` only touches the control-net globals: the prompt
cache, the pipeline handle and the process type pass through. -/
theorem load_control_net_state (s : SDXLModule) (w : World)
    (cfg : PipelineConfig) :
    ((load_control_net s w cfg).2.1.prompt_cache_key = s.prompt_cache_key) ∧
    ((load_control_net s w cfg).2.1.prompt_cache_value = s.prompt_cache_value) ∧
    ((load_control_net s w cfg).2.1.pipeline = s.pipeline) ∧
    ((load_control_net s w cfg).2.1.processType = s.processType) := by
  unfold load_control_net
  by_cases h1 : s.control_net_cache.isSome ∧ s.control_net_path = cfg.control_net_path
  · rw [if_pos h1]
    exact ⟨rfl, rfl, rfl, rfl⟩
  · rw [if_neg h1]
    by_cases h2 : cfg.control_net_path = none
    · rw [if_pos h2]
      exact ⟨rfl, rfl, rfl, rfl⟩
    · rw [if_neg h2]
      exact ⟨rfl, rfl, rfl, rfl⟩

/-- `create_pipeline` only touches the control-net globals of the module
state it returns: the prompt cache passes through. -/
theorem create_pipeline_preserves (s : SDXLModule) (w : World)
    (cfg : PipelineConfig) :
    ((create_pipeline s w cfg).1.prompt_cache_key = s.prompt_cache_key) ∧
    ((create_pipeline s w cfg).1.prompt_cache_value = s.prompt_cache_value) := by
  unfold create_pipeline
  rcases h1 : load_text_encoder s w with ⟨te, w1⟩
  dsimp only
  rcases h2 : load_text_encoder_2 s w1 with ⟨te2, w2⟩
  dsimp only
  rcases h3 : load_unet s w2 with ⟨un, w3⟩
  dsimp only
  rcases h4 : load_vae s w3 with ⟨va, w4⟩
  dsimp only
  rcases h5 : load_control_net s w4 cfg with ⟨cn, s', w5⟩
  dsimp only
  have hl := load_control_net_state s w4 cfg
  rw [h5] at hl
  cases hpm : pipelineMap cfg.process_type with
  | none => exact ⟨hl.1, hl.2.1⟩
  | some cls => exact ⟨hl.1, hl.2.1⟩

/-- C9 counterexample: after a rebuild that changes nothing but the process
type, the first `generate` with the same prompts as before the rebuild
reuses the cached embeddings (zero computations) instead of recomputing —
`reload` never clears `_prompt_cache_key` / `_prompt_cache_value`. -/
theorem C9_reload_cache_cx :
    ((reload (generate exampleLoaded ⟨"a cat", none, 1, 1⟩ none).state ⟨100⟩
        ⟨"TextToImage", "Device", none⟩).1.prompt_cache_key
      = some ("a cat", none)) ∧
    ((generate ((reload (generate exampleLoaded ⟨"a cat", none, 1, 1⟩ none).state
        ⟨100⟩ ⟨"TextToImage", "Device", none⟩).1) ⟨"a cat", none, 1, 1⟩
        none).encodeCalls = 0) ∧
    ¬ ((0 : ℕ) = 1) :=
  ⟨rfl, rfl, by decide⟩

/-- C9 amended: `reload` (rebuild) preserves the prompt-embedding cache
unchanged, so the first `generate` after a reload with the same prompt pair
as before reuses it with zero recomputation; the cache is cleared only by
`unload`. -/
theorem C9_reload_cache_amended (s : SDXLModule) (w : World)
    (cfg : PipelineConfig) :
    ((reload s w cfg).1.prompt_cache_key = s.prompt_cache_key) ∧
    ((reload s w cfg).1.prompt_cache_value = s.prompt_cache_value) ∧
    ((unload s).1.prompt_cache_key = none) ∧
    ((unload s).1.prompt_cache_value = none) ∧
    (∀ (opts : PipelineOptions) (cAt : Option ℕ),
      s.prompt_cache_key = some (opts.prompt, opts.negative_prompt) →
      (generate (reload s w cfg).1 opts cAt).encodeCalls = 0) := by
  have hcp := create_pipeline_preserves
    { s with processType := some cfg.process_type } w cfg
  have hkey : (reload s w cfg).1.prompt_cache_key = s.prompt_cache_key := by
    unfold reload
    rcases hc : create_pipeline { s with processType := some cfg.process_type } w cfg
      with ⟨s1, w1, r⟩
    rw [hc] at hcp
    cases r with
    | error e => exact hcp.1
    | ok pipe => exact hcp.1
  have hval : (reload s w cfg).1.prompt_cache_value = s.prompt_cache_value := by
    unfold reload
    rcases hc : create_pipeline { s with processType := some cfg.process_type } w cfg
      with ⟨s1, w1, r⟩
    rw [hc] at hcp
    cases r with
    | error e => exact hcp.2
    | ok pipe => exact hcp.2
  refine ⟨hkey, hval, rfl, rfl, ?_⟩
  intro opts cAt h
  have hk : (reload s w cfg).1.prompt_cache_key
      = some (opts.prompt, opts.negative_prompt) := by rw [hkey, h]
  exact ((generate_cache (reload s w cfg).1 opts cAt).2.1 hk).1

/-- Witness for the amended C9 at a concrete reload. -/
theorem C9_reload_cache_amended_witness :
    ((generate ((reload (generate exampleLoaded ⟨"a cat", none, 1, 1⟩ none).state
        ⟨100⟩ ⟨"ImageToImage", "Device", none⟩).1) ⟨"a cat", none, 1, 1⟩
        none).encodeCalls = 0) :=
  (C9_reload_cache_amended (generate exampleLoaded ⟨"a cat", none, 1, 1⟩ none).state
    ⟨100⟩ ⟨"ImageToImage", "Device", none⟩).2.2.2.2 ⟨"a cat", none, 1, 1⟩ none rfl

theorem load_text_encoder_cached (s : SDXLModule) (w : World) (p : Pipe)
    (te : ℕ) (hp : s.pipeline = some p) (hte : p.text_encoder = some te) :
    load_text_encoder s w = (te, w) := by
  unfold load_text_encoder
  rw [hp]
  dsimp only
  rw [hte]

theorem load_text_encoder_2_cached (s : SDXLModule) (w : World) (p : Pipe)
    (te : ℕ) (hp : s.pipeline = some p) (hte : p.text_encoder_2 = some te) :
    load_text_encoder_2 s w = (te, w) := by
  unfold load_text_encoder_2
  rw [hp]
  dsimp only
  rw [hte]

theorem load_unet_cached (s : SDXLModule) (w : World) (p : Pipe)
    (u : ℕ) (hp : s.pipeline = some p) (hu : p.unet = some u) :
    load_unet s w = (u, w) := by
  unfold load_unet
  rw [hp]
  dsimp only
  rw [hu]

theorem load_vae_cached (s : SDXLModule) (w : World) (p : Pipe)
    (v : ℕ) (hp : s.pipeline = some p) (hv : p.vae = some v) :
    load_vae s w = (v, w) := by
  unfold load_vae
  rw [hp]
  dsimp only
  rw [hv]

theorem load_control_net_cached (s : SDXLModule) (w : World)
    (cfg : PipelineConfig) (c : ℕ) (hc : s.control_net_cache = some c)
    (hpath : s.control_net_path = cfg.control_net_path) :
    load_control_net s w cfg = (some c, s, w) := by
  unfold load_control_net
  rw [if_pos ⟨by rw [hc]; rfl, hpath⟩, hc]

theorem load_control_net_nopath (s : SDXLModule) (w : World)
    (cfg : PipelineConfig) (hc : s.control_net_cache = none)
    (hp : cfg.control_net_path = none) :
    load_control_net s w cfg
      = (none, { s with control_net_path := none, control_net_cache := none }, w) := by
  unfold load_control_net
  rw [if_neg (by simp [hc]), if_pos hp]

/-- C3: a rebuild whose configuration keeps everything but the process type
reuses every sub-model of the already-assembled pipeline by reference: the
rebuilt pipeline carries the identical text-encoder and autoencoder objects
(and unet, second text encoder, cached control net), no fresh object is
allocated, and only the pipeline class follows the new process type. -/
theorem C3_rebuild_reuses_submodels (s : SDXLModule) (w : World)
    (cfg : PipelineConfig) (p : Pipe) (te te2 un va : ℕ) (cls : PipeClass)
    (hp : s.pipeline = some p)
    (hte : p.text_encoder = some te) (hte2 : p.text_encoder_2 = some te2)
    (hun : p.unet = some un) (hva : p.vae = some va)
    (hpath : s.control_net_path = cfg.control_net_path)
    (hcache : s.control_net_cache.isSome = s.control_net_path.isSome)
    (hcls : pipelineMap cfg.process_type = some cls) :
    ((reload s w cfg).1.pipeline
        = some { cls := cls, text_encoder := some te, text_encoder_2 := some te2,
                 unet := some un, vae := some va,
                 controlnet := s.control_net_cache }) ∧
    ((reload s w cfg).2.1 = w) ∧
    ((reload s w cfg).2.2 = .ok (configure_pipeline_memory cfg.memory_mode)) := by
  unfold reload create_pipeline
  rw [load_text_encoder_cached { s with processType := some cfg.process_type } w
    p te hp hte]
  dsimp only
  rw [load_text_encoder_2_cached { s with processType := some cfg.process_type } w
    p te2 hp hte2]
  dsimp only
  rw [load_unet_cached { s with processType := some cfg.process_type } w
    p un hp hun]
  dsimp only
  rw [load_vae_cached { s with processType := some cfg.process_type } w
    p va hp hva]
  dsimp only
  by_cases hcnp : s.control_net_path = none
  · have hc : s.control_net_cache = none := by
      rw [hcnp] at hcache
      cases hcc : s.control_net_cache with
      | none => rfl
      | some c =>
        rw [hcc] at hcache
        simp at hcache
    rw [load_control_net_nopath { s with processType := some cfg.process_type } w
      cfg hc (by rw [← hpath]; exact hcnp)]
    dsimp only
    rw [hcls, hc]
    exact ⟨rfl, rfl, rfl⟩
  · have hcs : ∃ c, s.control_net_cache = some c := by
      cases hcc : s.control_net_cache with
      | none =>
        rw [hcc] at hcache
        cases hpp : s.control_net_path with
        | none => exact absurd hpp hcnp
        | some pp =>
          rw [hpp] at hcache
          simp at hcache
      | some c => exact ⟨c, rfl⟩
    obtain ⟨c, hc⟩ := hcs
    rw [load_control_net_cached { s with processType := some cfg.process_type } w
      cfg c hc hpath]
    dsimp only
    rw [hcls, hc]
    exact ⟨rfl, rfl, rfl⟩

/-- Witness for C3 at a concrete assembled pipeline: changing only the
process type to ImageToImage keeps the identical sub-model objects and
allocates nothing. -/
theorem C3_rebuild_reuses_submodels_witness :
    ((reload exampleLoaded ⟨100⟩ ⟨"ImageToImage", "Device", none⟩).1.pipeline
        = some { cls := .imageToImage, text_encoder := some 0,
                 text_encoder_2 := some 1, unet := some 2, vae := some 3,
                 controlnet := none }) ∧
    ((reload exampleLoaded ⟨100⟩ ⟨"ImageToImage", "Device", none⟩).2.1 = ⟨100⟩) := by
  have h := C3_rebuild_reuses_submodels exampleLoaded ⟨100⟩
    ⟨"ImageToImage", "Device", none⟩ examplePipe 0 1 2 3 .imageToImage
    rfl rfl rfl rfl rfl rfl rfl rfl
  exact ⟨h.1, h.2.1⟩

theorem create_pipeline_error (s : SDXLModule) (w : World) (cfg : PipelineConfig)
    (h : pipelineMap cfg.process_type = none) :
    (create_pipeline s w cfg).2.2 = .error .keyError := by
  unfold create_pipeline
  rcases h1 : load_text_encoder s w with ⟨te, w1⟩
  dsimp only
  rcases h2 : load_text_encoder_2 s w1 with ⟨te2, w2⟩
  dsimp only
  rcases h3 : load_unet s w2 with ⟨un, w3⟩
  dsimp only
  rcases h4 : load_vae s w3 with ⟨va, w4⟩
  dsimp only
  rcases h5 : load_control_net s w4 cfg with ⟨cn, s', w5⟩
  dsimp only
  rw [h]

theorem create_pipeline_ok (s : SDXLModule) (w : World) (cfg : PipelineConfig)
    (cls : PipeClass) (h : pipelineMap cfg.process_type = some cls) :
    ∃ pipe, (create_pipeline s w cfg).2.2 = .ok pipe := by
  unfold create_pipeline
  rcases h1 : load_text_encoder s w with ⟨te, w1⟩
  dsimp only
  rcases h2 : load_text_encoder_2 s w1 with ⟨te2, w2⟩
  dsimp only
  rcases h3 : load_unet s w2 with ⟨un, w3⟩
  dsimp only
  rcases h4 : load_vae s w3 with ⟨va, w4⟩
  dsimp only
  rcases h5 : load_control_net s w4 cfg with ⟨cn, s', w5⟩
  dsimp only
  rw [h]
  exact ⟨_, rfl⟩

/-- C8 counterexample: an unrecognized `memory_mode` is not a hard failure:
pipeline construction returns normally, no placement action is performed and
the mode is treated as non-offload. -/
theorem C8_unknown_enum_cx :
    ("Banana" ∉ declaredMemoryModes) ∧
    ((load initModule ⟨100⟩ ⟨"TextToImage", "Banana", none⟩).2.2
        = .ok { vae_tiling := false, vae_slicing := false, placement := none,
                isOffload := false }) ∧
    ((configure_pipeline_memory "Banana").placement = none) :=
  ⟨by decide, rfl, rfl⟩

/-- C8 amended: an unknown `process_type` is a hard failure surfaced to the
caller (the `KeyError` from the pipeline map, in both `load` and `reload`);
an unrecognized `memory_mode`, however, is silently accepted:
`configure_pipeline_memory` matches no branch, performs no placement and
returns the non-offload flag, and construction succeeds. -/
theorem C8_unknown_enum_amended (s : SDXLModule) (w : World)
    (cfg : PipelineConfig) :
    (pipelineMap cfg.process_type = none →
      (load s w cfg).2.2 = .error .keyError ∧
      (reload s w cfg).2.2 = .error .keyError) ∧
    (cfg.memory_mode ∉ declaredMemoryModes →
      configure_pipeline_memory cfg.memory_mode
          = { vae_tiling := false, vae_slicing := false, placement := none,
              isOffload := false } ∧
      (∀ cls, pipelineMap cfg.process_type = some cls →
        (load s w cfg).2.2 = .ok (configure_pipeline_memory cfg.memory_mode))) := by
  constructor
  · intro h
    have he := create_pipeline_error
      { s with processType := some cfg.process_type } w cfg h
    constructor
    · unfold load
      rcases hc : create_pipeline { s with processType := some cfg.process_type }
        w cfg with ⟨s1, w1, r⟩
      rw [hc] at he
      dsimp only at he
      rw [he]
    · unfold reload
      rcases hc : create_pipeline { s with processType := some cfg.process_type }
        w cfg with ⟨s1, w1, r⟩
      rw [hc] at he
      dsimp only at he
      rw [he]
  · intro hmm
    simp only [declaredMemoryModes, List.mem_cons, List.not_mem_nil, or_false,
      not_or] at hmm
    obtain ⟨hm1, hm2, hm3, hm4, hm5, hm6⟩ := hmm
    constructor
    · unfold configure_pipeline_memory
      simp [hm1, hm2, hm3, hm4, hm5, hm6]
    · intro cls hcls
      obtain ⟨pipe, hpipe⟩ := create_pipeline_ok
        { s with processType := some cfg.process_type } w cfg cls hcls
      unfold load
      rcases hc : create_pipeline { s with processType := some cfg.process_type }
        w cfg with ⟨s1, w1, r⟩
      rw [hc] at hpipe
      dsimp only at hpipe
      rw [hpipe]

/-- Witness for the amended C8: an unknown process type fails the load with
a `KeyError`, while an unknown memory mode leaves the load succeeding with
the inert memory effect. -/
theorem C8_unknown_enum_amended_witness :
    ((load initModule ⟨0⟩ ⟨"Bogus", "Device", none⟩).2.2 = .error .keyError) ∧
    (configure_pipeline_memory "Banana"
        = { vae_tiling := false, vae_slicing := false, placement := none,
            isOffload := false }) ∧
    ((load initModule ⟨0⟩ ⟨"TextToImage", "Banana", none⟩).2.2
        = .ok (configure_pipeline_memory "Banana")) :=
  ⟨((C8_unknown_enum_amended initModule ⟨0⟩ ⟨"Bogus", "Device", none⟩).1 rfl).1,
   ((C8_unknown_enum_amended initModule ⟨0⟩ ⟨"TextToImage", "Banana", none⟩).2
      (by decide)).1,
   ((C8_unknown_enum_amended initModule ⟨0⟩ ⟨"TextToImage", "Banana", none⟩).2
      (by decide)).2 .textToImage rfl⟩

/-- Witness for C2: canceling during step 2 of a 3-step run fails with
`OperationCanceled`, executes exactly 2 steps and leaves the latent of
step 1. -/
theorem C2_cancellation_semantics_witness :
    ((generate exampleLoaded ⟨"a cat", none, 1, 3⟩ (some 2)).result
        = .error .operationCanceled) ∧
    ((generate exampleLoaded ⟨"a cat", none, 1, 3⟩ (some 2)).executed = 2) ∧
    ((generate exampleLoaded ⟨"a cat", none, 1, 3⟩ (some 2)).state.step_latent
        = some 1) := by
  have h := C2_cancellation_semantics exampleLoaded ⟨"a cat", none, 1, 3⟩ 2
    (by decide) (by decide)
  refine ⟨h.1, h.2.1, ?_⟩
  rw [h.2.2.1]
  rfl

end TensorStack

namespace TensorStack

/-- C5: `is_quantization_supported` returns `false` exactly when no backend is
available, or the memory mode is `OffloadCPU`, or the quantization dtype
equals the model dtype; in each of those cases `quantize_model` leaves the
model untouched and `get_quantize_model_config` produces no config; in all
other cases it returns `true`. -/
theorem C5_quantization_support_policy (b : QuantBackends) (d q : DType)
    (mm : String) (m : QModel) (hm : m.dtype = d) :
    (is_quantization_supported b d q mm = false ↔
      ((b.hasTorchao = false ∧ b.hasQuanto = false) ∨ mm = "OffloadCPU" ∨ q = d)) ∧
    (((b.hasTorchao = false ∧ b.hasQuanto = false) ∨ mm = "OffloadCPU" ∨ q = d) →
      quantize_model b m q mm = m ∧
      get_quantize_model_config b d q mm = (none, none)) ∧
    (¬ ((b.hasTorchao = false ∧ b.hasQuanto = false) ∨ mm = "OffloadCPU" ∨ q = d) →
      is_quantization_supported b d q mm = true) := by
  subst hm
  unfold is_quantization_supported quantize_model get_quantize_model_config
      is_quantization_supported
  rcases b with ⟨ta, qa⟩
  rcases ta <;> rcases qa <;>
    by_cases hmm : mm = "OffloadCPU" <;>
    by_cases hq : q = m.dtype <;>
    simp_all

/-- Witness for C5 at a concrete triple: float16 → float16 under both
backends is unsupported and leaves the model unchanged. -/
theorem C5_quantization_support_policy_witness :
    quantize_model ⟨true, true⟩ ⟨DType.float16, false⟩ DType.float16 "Device"
        = ⟨DType.float16, false⟩ ∧
    get_quantize_model_config ⟨true, true⟩ DType.float16 DType.float16 "Device"
        = (none, none) :=
  (C5_quantization_support_policy ⟨true, true⟩ DType.float16 DType.float16
      "Device" ⟨DType.float16, false⟩ rfl).2.1 (Or.inr (Or.inr rfl))

end TensorStack
